import Mathlib

set_option maxHeartbeats 1000000

/-!
Verification of the donation-logistics reconciliation engine (src/app.py):
the use-case registry, the row classifier (handle_use_case_row), the
resolution logic of the request handler (run_use_cases), and the fallback
policy of generate_llm_solution.

Modelling conventions:
* Python dicts holding row data become Lean structures.  A field that a
  given code path leaves out of the produced dict is an `Option` that is
  `none` there.
* A Python exception escaping a function is modelled by the function
  returning `none` (`Option`-valued results).
* The external text-generation call is abstracted as a parameter
  `gen : ClassifiedRow → Option String`; `some t` models a call that
  returns text `t`, `none` models any raised failure (network error,
  quota, timeout), which in the source is caught by the bare
  `except Exception` handler.
-/

/-- The registry of recognized use-case names, transcribed in source order
from the `USE_CASES` set literal in src/app.py. -/
def USE_CASES : List String :=
  [ "CSV Upload Validation"
  , "Duplicate Asset Detection"
  , "Pickup Scheduling Confirmation"
  , "Donor Asset Data Validation"
  , "Donation Commitment vs Actual Reconciliation"
  , "Data Privacy Compliance"
  , "Donation Tax Certificate Issuance"
  , "Asset Return or Cancellation Request"
  , "Receiving Assets from Donor"
  , "Partner Asset Classification"
  , "Rescheduling & Location Mismatch"
  , "Partner to Beneficiary Handoff"
  , "Multiple Pickups in Phases"
  , "Inventory Overstock Management"
  , "Partner Skill/Capability Mismatch"
  , "Partner Non-compliance or SLA Breach"
  , "Receipt Confirmation"
  , "Device Condition Feedback"
  , "Feedback on Usability"
  , "Multiple Deliveries Tracking"
  , "Unauthorized Asset Usage"
  , "Beneficiary Accessibility Issues"
  , "Lost or Stolen Asset Report"
  , "Donor Budget vs Execution Reconciliation"
  , "Expense Tracking vs Asset Flow"
  , "Audit Trail & Compliance Reporting"
  , "Budget Variance Forecasting"
  , "Regulatory Compliance Check"
  , "Multi-project Resource Allocation" ]

/-- The canned remediation texts, transcribed from the
`USE_CASE_SOLUTIONS` dict literal in src/app.py, as an association list. -/
def USE_CASE_SOLUTIONS : List (String × String) :=
  [ ("CSV Upload Validation",
     "Simple binary validation. System accepts or rejects the upload. No chatbot needed.")
  , ("Duplicate Asset Detection",
     "AI chatbot detects duplicates, alerts donor instantly, reduces manual cleanup.")
  , ("Pickup Scheduling Confirmation",
     "Bot reconciles scheduled assets vs CSV upload, alerts mismatch, prompts correction.")
  , ("Donor Asset Data Validation",
     "Bot can query donor to fill missing data or correct errors interactively.")
  , ("Donation Commitment vs Actual Reconciliation",
     "Bot helps compare commitment vs upload and pickup, alerts donor or admin for mismatches.")
  , ("Data Privacy Compliance",
     "Bot verifies consent flags, requests missing consents interactively to ensure compliance.")
  , ("Donation Tax Certificate Issuance",
     "Bot auto-generates certificates, notifies donors, and tracks issuance status.")
  , ("Asset Return or Cancellation Request",
     "Bot manages cancellation workflows, approves or refers to admin, updates records.")
  , ("Receiving Assets from Donor",
     "Chatbot reconciles expected vs received assets and flags discrepancies for approval.")
  , ("Partner Asset Classification",
     "AI-powered image recognition bot suggests correct classification and reduces manual errors.")
  , ("Rescheduling & Location Mismatch",
     "Bot tracks schedules, alerts all parties, suggests new timings, and confirms.")
  , ("Partner to Beneficiary Handoff",
     "Bot records asset condition, confirms quantities, and alerts admin on discrepancies.")
  , ("Multiple Pickups in Phases",
     "Chatbot tracks phased pickups, aggregates data, and sends reminders for incomplete pickups.")
  , ("Inventory Overstock Management",
     "Bot detects overcapacity and suggests redistribution or pickup rescheduling.")
  , ("Partner Skill/Capability Mismatch",
     "Bot flags assets needing specialized handling and routes them to expert partners.")
  , ("Partner Non-compliance or SLA Breach",
     "Bot monitors SLA data, sends warnings, and escalates persistent issues.")
  , ("Receipt Confirmation",
     "Bot prompts for receipt confirmation and sends reminders until acknowledged.")
  , ("Device Condition Feedback",
     "Bot collects condition reports with photos and triggers alerts for replacements.")
  , ("Feedback on Usability",
     "Bot sends automated surveys and collects structured usability feedback.")
  , ("Multiple Deliveries Tracking",
     "Bot aggregates deliveries and shows clear history and status.")
  , ("Unauthorized Asset Usage",
     "Bot monitors usage logs, flags anomalies, and alerts admin for investigation.")
  , ("Beneficiary Accessibility Issues",
     "Bot collects accessibility issues via feedback and coordinates logistics resolution.")
  , ("Lost or Stolen Asset Report",
     "Bot logs reports, initiates claims workflows, and notifies donor and admin.")
  , ("Donor Budget vs Execution Reconciliation",
     "Bot reconciles donation value against promised budget and flags shortfalls or overruns.")
  , ("Expense Tracking vs Asset Flow",
     "Bot analyzes financial data against asset logs and alerts admins of anomalies.")
  , ("Audit Trail & Compliance Reporting",
     "Bot ensures all handoffs are logged and auto-generates audit-ready summaries.")
  , ("Budget Variance Forecasting",
     "Bot analyzes historical trends and predicts budget variances for review.")
  , ("Regulatory Compliance Check",
     "Bot tracks deadlines, verifies document completeness, and escalates non-compliance.")
  , ("Multi-project Resource Allocation",
     "Bot recommends resource redistribution based on priority and availability.") ]

/-- `RECONCILIATION_CASES` set literal from src/app.py. -/
def RECONCILIATION_CASES : List String :=
  [ "Donation Commitment vs Actual Reconciliation"
  , "Donor Budget vs Execution Reconciliation"
  , "Expense Tracking vs Asset Flow" ]

/-- `VALIDATION_CASES` set literal from src/app.py. -/
def VALIDATION_CASES : List String :=
  [ "CSV Upload Validation"
  , "Donor Asset Data Validation"
  , "Duplicate Asset Detection" ]

/-- `PROCESS_CASES = USE_CASES - RECONCILIATION_CASES - VALIDATION_CASES`
(set subtraction) from src/app.py. -/
def PROCESS_CASES : List String :=
  USE_CASES.filter
    (fun u => u ∉ RECONCILIATION_CASES ∧ u ∉ VALIDATION_CASES)

/-- One parsed input row handed to `handle_use_case_row`.  `use_case` is
guaranteed present by the request handler's column guard; every other
field is `none` when the corresponding column is absent from the upload,
and carries the cell's raw text when present. -/
structure InputRow where
  use_case : String
  source : Option String := none
  target : Option String := none
  sent : Option String := none
  received : Option String := none
  metadata : Option String := none
deriving Repr, DecidableEq

/-- The dict returned by `handle_use_case_row`.  The rejection path in the
source builds a dict holding only `use_case`, `status` and `severity`, so
every other field is an `Option` that is `none` exactly when the source
dict lacks the key. -/
structure ClassifiedRow where
  use_case : String
  source : Option String
  target : Option String
  sent : Option Int
  received : Option Int
  difference : Option Int
  status : String
  severity : String
  metadata : Option String
deriving Repr, DecidableEq

/-- Models the Python built-in `int()` applied to a decimal string:
surrounding whitespace is stripped, an optional single leading sign is
accepted, and the remainder must be a nonempty run of ASCII digits; any
other string raises `ValueError`, modelled as `none`. -/
def pyInt (s : String) : Option Int :=
  let t :=
    ((s.toList.dropWhile Char.isWhitespace).reverse.dropWhile
      Char.isWhitespace).reverse
  match t with
  | [] => none
  | c :: rest =>
    let signDigits : Int × List Char :=
      if c = '-' then (-1, rest)
      else if c = '+' then (1, rest)
      else (1, c :: rest)
    if signDigits.2 ≠ [] ∧ signDigits.2.all Char.isDigit then
      some (signDigits.1 *
        (signDigits.2.foldl (fun acc ch => acc * 10 + (ch.toNat - 48)) 0 : Nat))
    else none

/-- Models `int(row.get(key, 0))` from src/app.py lines 159-160: a missing
key yields the integer default `0` directly; a present cell value goes
through `int()` and may raise. -/
def getIntField (v : Option String) : Option Int :=
  match v with
  | none => some 0
  | some s => pyInt s

/-- The row classifier `handle_use_case_row` of src/app.py (lines
148-185).  Returns `none` when the Python function would raise, which
happens exactly when `int()` fails on a present `sent` or `received`
cell of a Reconciliation-category row. -/
def handle_use_case_row (row : InputRow) : Option ClassifiedRow :=
  if row.use_case ∉ USE_CASES then
    some { use_case := row.use_case
         , source := none, target := none
         , sent := none, received := none, difference := none
         , status := "INVALID_USE_CASE"
         , severity := "HIGH"
         , metadata := none }
  else if row.use_case ∈ RECONCILIATION_CASES then
    match getIntField row.sent, getIntField row.received with
    | some sent, some received =>
      some { use_case := row.use_case
           , source := some (row.source.getD (""))
           , target := some (row.target.getD (""))
           , sent := some sent, received := some received
           , difference := some (sent - received)
           , status := if sent - received = 0 then "MATCH" else "MISMATCH"
           , severity := if sent - received ≠ 0 then "HIGH" else "NONE"
           , metadata := some (row.metadata.getD ("")) }
    | _, _ => none
  else if row.use_case ∈ VALIDATION_CASES then
    some { use_case := row.use_case
         , source := some (row.source.getD (""))
         , target := some (row.target.getD (""))
         , sent := some 0, received := some 0, difference := some 0
         , status := "VALIDATION_REQUIRED"
         , severity := "MEDIUM"
         , metadata := some (row.metadata.getD ("")) }
  else
    some { use_case := row.use_case
         , source := some (row.source.getD (""))
         , target := some (row.target.getD (""))
         , sent := some 0, received := some 0, difference := some 0
         , status := "PROCESS_EVENT"
         , severity := "MEDIUM"
         , metadata := some (row.metadata.getD ("")) }

/-- `generate_llm_solution` of src/app.py (lines 186-204), with the
external service call abstracted as `gen`.  A raised failure (`none`) is
caught and converted to the f-string fallback of line 204, built from
`USE_CASE_SOLUTIONS.get(use_case, "Manual review required.")`. -/
def generate_llm_solution (gen : ClassifiedRow → Option String)
    (result : ClassifiedRow) : String :=
  match gen result with
  | some text => text
  | none =>
    "LLM unavailable due to quota or rate limits. Suggested action: "
      ++ ((USE_CASE_SOLUTIONS.lookup result.use_case).getD
            ("Manual review required."))

/-- A classified row annotated with its `solution` string, as assembled
inside the loop of `run_use_cases`. -/
structure ResolvedRow extends ClassifiedRow where
  solution : String
deriving Repr, DecidableEq

/-- The per-row resolution logic of `run_use_cases` (src/app.py lines
224-229): the rejection literal for `INVALID_USE_CASE` rows, the canned
text for `CSV Upload Validation`, otherwise the generated narrative with
its fallback.  The dict index `USE_CASE_SOLUTIONS["CSV Upload Validation"]`
cannot raise because the key is present (proved below), so its lookup is
written with a default. -/
def resolveRow (gen : ClassifiedRow → Option String)
    (result : ClassifiedRow) : ResolvedRow :=
  if result.status = "INVALID_USE_CASE" then
    { toClassifiedRow := result
    , solution := "Rejected: use_case not recognized." }
  else if result.use_case = "CSV Upload Validation" then
    { toClassifiedRow := result
    , solution :=
        (USE_CASE_SOLUTIONS.lookup ("CSV Upload Validation")).getD ("") }
  else
    { toClassifiedRow := result
    , solution := generate_llm_solution gen result }

/-- The response body of `run_use_cases`. -/
structure ResultSet where
  total : Nat
  results : List ResolvedRow
deriving Repr, DecidableEq

/-- The body of the `for` loop of `run_use_cases` (src/app.py lines
221-231): classify then resolve each row in input order; a
classification exception aborts the whole loop (modelled as `none`). -/
def processRows (gen : ClassifiedRow → Option String) :
    List InputRow → Option (List ResolvedRow)
  | [] => some []
  | r :: rest =>
    match handle_use_case_row r with
    | none => none
    | some c => (processRows gen rest).map (fun l => resolveRow gen c :: l)

/-- The request body assembly of `run_use_cases` (src/app.py lines
219-235) over the already-parsed rows: run the loop, then return the
ordered results with their count. -/
def run_use_cases (gen : ClassifiedRow → Option String)
    (rows : List InputRow) : Option ResultSet :=
  (processRows gen rows).map
    (fun results => { total := results.length, results := results })

/-! ## Shared facts about the registry and the classifier -/

/-- The three category lists are contained in the registry, and the two
explicit ones are disjoint from each other. -/
theorem category_lists_basic :
    (∀ u ∈ RECONCILIATION_CASES, u ∈ USE_CASES) ∧
    (∀ u ∈ VALIDATION_CASES, u ∈ USE_CASES) ∧
    (∀ u ∈ RECONCILIATION_CASES, u ∉ VALIDATION_CASES) := by decide

/-- Whatever branch produced it, an output of the classifier carries the
input row's `use_case`. -/
theorem handle_use_case_row_use_case (row : InputRow) (c : ClassifiedRow)
    (hc : handle_use_case_row row = some c) : c.use_case = row.use_case := by
  unfold handle_use_case_row at hc
  split at hc
  · cases hc; rfl
  · split at hc
    · split at hc
      · cases hc; rfl
      · cases hc
    · split at hc
      · cases hc; rfl
      · cases hc; rfl

/-- Both resolution branches and the narrative branch keep the classified
fields unchanged, so a resolved row carries its classified row's
`use_case`. -/
theorem resolveRow_use_case (gen : ClassifiedRow → Option String)
    (c : ClassifiedRow) : (resolveRow gen c).use_case = c.use_case := by
  unfold resolveRow
  split
  · rfl
  · split <;> rfl

/-! ## C7: the registry and its category partition -/

/-- C7: the use-case registry has exactly 29 distinct members, and the
three category sets (Reconciliation, Validation, ProcessEvent) partition
it: each is contained in the registry, they are pairwise disjoint, and
every registered name lies in exactly one of the three. -/
theorem registry_partition :
    USE_CASES.Nodup ∧ USE_CASES.length = 29 ∧
    (∀ u ∈ RECONCILIATION_CASES, u ∈ USE_CASES) ∧
    (∀ u ∈ VALIDATION_CASES, u ∈ USE_CASES) ∧
    (∀ u ∈ PROCESS_CASES, u ∈ USE_CASES) ∧
    (∀ u ∈ RECONCILIATION_CASES, u ∉ VALIDATION_CASES ∧ u ∉ PROCESS_CASES) ∧
    (∀ u ∈ VALIDATION_CASES, u ∉ PROCESS_CASES) ∧
    (∀ u ∈ USE_CASES,
      u ∈ RECONCILIATION_CASES ∨ u ∈ VALIDATION_CASES ∨ u ∈ PROCESS_CASES) := by
  decide

/-! ## C1: the rejection path for unregistered use cases -/

/-- An input row with an unregistered use case and every optional column
populated, used to exercise the rejection path. -/
def invalidRow : InputRow :=
  { use_case := "Not A Real Case"
  , source := some "warehouse"
  , target := some "school"
  , sent := some "5"
  , received := some "2"
  , metadata := some "m1" }

/-- C1 counterexample: on a rejected row the classifier's output dict has
no `sent` and no `source` key at all (`none`), so `sent` is not the
integer 0 and the populated `source` column is not carried through. -/
theorem rejection_fields_counterexample :
    (handle_use_case_row invalidRow).map ClassifiedRow.sent ≠
      some (some 0) ∧
    (handle_use_case_row invalidRow).map ClassifiedRow.source ≠
      some (some "warehouse") := by decide

/-- C1 (amended): for every input row whose use case is not in the
registry, the classifier returns status INVALID_USE_CASE and severity
HIGH, and the returned dict omits the `sent`, `received`, `difference`,
`source`, `target` and `metadata` keys entirely (it is the three-field
dict of src/app.py lines 152-156); nothing is carried through and no
zero defaults are set. -/
theorem invalid_use_case_rejection (row : InputRow)
    (h : row.use_case ∉ USE_CASES) :
    handle_use_case_row row =
      some { use_case := row.use_case
           , source := none, target := none
           , sent := none, received := none, difference := none
           , status := "INVALID_USE_CASE"
           , severity := "HIGH"
           , metadata := none } := by
  unfold handle_use_case_row
  rw [if_pos h]

/-- Instantiation of the rejection theorem at a concrete unregistered
row. -/
theorem invalid_use_case_rejection_witness :
    invalidRow.use_case ∉ USE_CASES ∧
    handle_use_case_row invalidRow =
      some { use_case := "Not A Real Case"
           , source := none, target := none
           , sent := none, received := none, difference := none
           , status := "INVALID_USE_CASE"
           , severity := "HIGH"
           , metadata := none } :=
  ⟨by decide, invalid_use_case_rejection invalidRow (by decide)⟩

/-! ## C2: numeric coercion of sent and received -/

/-- A Reconciliation-category row whose `sent` cell is not parseable as
an integer. -/
def badSentRow : InputRow :=
  { use_case := "Donation Commitment vs Actual Reconciliation"
  , sent := some "abc"
  , received := some "7" }

/-- C2 counterexample: on a Reconciliation row whose `sent` cell is the
string "abc", the classifier raises (the bare `int()` call of src/app.py
line 159 has no handler), so classification aborts instead of treating
the value as 0. -/
theorem coercion_failure_counterexample :
    handle_use_case_row badSentRow = none := by decide

/-- C2 (amended): for a Reconciliation-category row the classifier
succeeds exactly when both `sent` and `received` coerce (a missing
column defaults to 0, a present cell must parse as an integer); an
unparseable value makes the `int()` call raise, aborting classification,
so classify is not total on string-valued sent/received inputs. -/
theorem coercion_failure_aborts (row : InputRow)
    (h : row.use_case ∈ RECONCILIATION_CASES) :
    (handle_use_case_row row).isSome ↔
      ((getIntField row.sent).isSome ∧ (getIntField row.received).isSome) := by
  have h1 : ¬ row.use_case ∉ USE_CASES :=
    not_not_intro (category_lists_basic.1 row.use_case h)
  unfold handle_use_case_row
  rw [if_neg h1, if_pos h]
  rcases hs : getIntField row.sent with _ | s <;>
    rcases hr : getIntField row.received with _ | r <;> simp

/-- Instantiation of the coercion theorem at `badSentRow`, whose `sent`
does not parse, and hence whose classification fails. -/
theorem coercion_failure_aborts_witness :
    badSentRow.use_case ∈ RECONCILIATION_CASES ∧
    ((handle_use_case_row badSentRow).isSome ↔
      ((getIntField badSentRow.sent).isSome ∧
        (getIntField badSentRow.received).isSome)) :=
  ⟨by decide, coercion_failure_aborts badSentRow (by decide)⟩

/-! ## C4: the Reconciliation rule -/

/-- C4: on every Reconciliation-category row that the classifier
accepts, the output carries integers `sent` and `received` with
`difference = sent - received`, status is MATCH exactly when the
difference is zero and MISMATCH otherwise, and severity is NONE exactly
when status is MATCH and HIGH otherwise. -/
theorem reconciliation_rule (row : InputRow) (c : ClassifiedRow)
    (h : row.use_case ∈ RECONCILIATION_CASES)
    (hc : handle_use_case_row row = some c) :
    ∃ s r : Int, c.sent = some s ∧ c.received = some r ∧
      c.difference = some (s - r) ∧
      (c.status = "MATCH" ↔ s - r = 0) ∧
      (c.status = "MATCH" ∨ c.status = "MISMATCH") ∧
      (c.severity = "NONE" ↔ c.status = "MATCH") ∧
      (c.severity = "NONE" ∨ c.severity = "HIGH") := by
  have h1 : ¬ row.use_case ∉ USE_CASES :=
    not_not_intro (category_lists_basic.1 row.use_case h)
  unfold handle_use_case_row at hc
  rw [if_neg h1, if_pos h] at hc
  rcases hs : getIntField row.sent with _ | s <;> rw [hs] at hc
  · cases hc
  rcases hr : getIntField row.received with _ | r <;> rw [hr] at hc
  · cases hc
  injection hc with h2
  subst h2
  refine ⟨s, r, rfl, rfl, rfl, ?_, ?_, ?_, ?_⟩ <;>
    by_cases hd : s - r = 0 <;> simp [hd]

/-- The spec's mismatch scenario row: committed 10, received 7. -/
def mismatchRow : InputRow :=
  { use_case := "Donation Commitment vs Actual Reconciliation"
  , sent := some "10", received := some "7" }

/-- The classifier's output on `mismatchRow`. -/
def mismatchClassified : ClassifiedRow :=
  { use_case := "Donation Commitment vs Actual Reconciliation"
  , source := some "", target := some ""
  , sent := some 10, received := some 7, difference := some 3
  , status := "MISMATCH", severity := "HIGH", metadata := some "" }

/-- Instantiation of the Reconciliation rule at the spec's scenario row
(sent 10, received 7, difference 3, MISMATCH, HIGH). -/
theorem reconciliation_rule_witness :
    mismatchRow.use_case ∈ RECONCILIATION_CASES ∧
    handle_use_case_row mismatchRow = some mismatchClassified ∧
    (∃ s r : Int, mismatchClassified.sent = some s ∧
      mismatchClassified.received = some r ∧
      mismatchClassified.difference = some (s - r) ∧
      (mismatchClassified.status = "MATCH" ↔ s - r = 0) ∧
      (mismatchClassified.status = "MATCH" ∨
        mismatchClassified.status = "MISMATCH") ∧
      (mismatchClassified.severity = "NONE" ↔
        mismatchClassified.status = "MATCH") ∧
      (mismatchClassified.severity = "NONE" ∨
        mismatchClassified.severity = "HIGH")) :=
  ⟨by decide, by decide,
    reconciliation_rule mismatchRow mismatchClassified (by decide) (by decide)⟩

/-! ## C5: the Validation rule and the residual ProcessEvent rule -/

/-- C5: every recognized Validation-category row classifies to
`sent = received = difference = 0`, status VALIDATION_REQUIRED and
severity MEDIUM, whatever its input sent/received cells hold; and every
registered row in neither Reconciliation nor Validation classifies to
status PROCESS_EVENT with severity MEDIUM. -/
theorem validation_and_process_rule (row : InputRow) (c : ClassifiedRow)
    (hc : handle_use_case_row row = some c) :
    (row.use_case ∈ VALIDATION_CASES →
      c.sent = some 0 ∧ c.received = some 0 ∧ c.difference = some 0 ∧
      c.status = "VALIDATION_REQUIRED" ∧ c.severity = "MEDIUM") ∧
    (row.use_case ∈ USE_CASES → row.use_case ∉ RECONCILIATION_CASES →
      row.use_case ∉ VALIDATION_CASES →
      c.sent = some 0 ∧ c.received = some 0 ∧ c.difference = some 0 ∧
      c.status = "PROCESS_EVENT" ∧ c.severity = "MEDIUM") := by
  constructor
  · intro h
    have h1 : ¬ row.use_case ∉ USE_CASES :=
      not_not_intro (category_lists_basic.2.1 row.use_case h)
    have h2 : row.use_case ∉ RECONCILIATION_CASES := fun hr =>
      (category_lists_basic.2.2 row.use_case hr) h
    unfold handle_use_case_row at hc
    rw [if_neg h1, if_neg h2, if_pos h] at hc
    injection hc with h3
    subst h3
    exact ⟨rfl, rfl, rfl, rfl, rfl⟩
  · intro hin hnr hnv
    have h1 : ¬ row.use_case ∉ USE_CASES := not_not_intro hin
    unfold handle_use_case_row at hc
    rw [if_neg h1, if_neg hnr, if_neg hnv] at hc
    injection hc with h3
    subst h3
    exact ⟨rfl, rfl, rfl, rfl, rfl⟩

/-- A Validation-category row with nonzero sent/received cells, which the
rule must ignore. -/
def validationRow : InputRow :=
  { use_case := "Duplicate Asset Detection"
  , sent := some "9", received := some "4" }

/-- The classifier's output on `validationRow`. -/
def validationClassified : ClassifiedRow :=
  { use_case := "Duplicate Asset Detection"
  , source := some "", target := some ""
  , sent := some 0, received := some 0, difference := some 0
  , status := "VALIDATION_REQUIRED", severity := "MEDIUM"
  , metadata := some "" }

/-- A registered row in neither Reconciliation nor Validation. -/
def processRow : InputRow := { use_case := "Receipt Confirmation" }

/-- The classifier's output on `processRow`. -/
def processClassified : ClassifiedRow :=
  { use_case := "Receipt Confirmation"
  , source := some "", target := some ""
  , sent := some 0, received := some 0, difference := some 0
  , status := "PROCESS_EVENT", severity := "MEDIUM"
  , metadata := some "" }

/-- Instantiation of the Validation and ProcessEvent rules at concrete
rows of each kind. -/
theorem validation_and_process_rule_witness :
    (validationClassified.sent = some 0 ∧
      validationClassified.received = some 0 ∧
      validationClassified.difference = some 0 ∧
      validationClassified.status = "VALIDATION_REQUIRED" ∧
      validationClassified.severity = "MEDIUM") ∧
    (processClassified.sent = some 0 ∧
      processClassified.received = some 0 ∧
      processClassified.difference = some 0 ∧
      processClassified.status = "PROCESS_EVENT" ∧
      processClassified.severity = "MEDIUM") :=
  ⟨(validation_and_process_rule validationRow validationClassified
      (by decide)).1 (by decide),
   (validation_and_process_rule processRow processClassified
      (by decide)).2 (by decide) (by decide) (by decide)⟩

/-! ## C10: severity is a function of status -/

/-- C10: on every classifier output, severity is determined by status
alone: NONE exactly for MATCH, MEDIUM exactly for VALIDATION_REQUIRED or
PROCESS_EVENT, HIGH exactly for MISMATCH or INVALID_USE_CASE. -/
theorem severity_from_status (row : InputRow) (c : ClassifiedRow)
    (hc : handle_use_case_row row = some c) :
    (c.severity = "NONE" ↔ c.status = "MATCH") ∧
    (c.severity = "MEDIUM" ↔
      (c.status = "VALIDATION_REQUIRED" ∨ c.status = "PROCESS_EVENT")) ∧
    (c.severity = "HIGH" ↔
      (c.status = "MISMATCH" ∨ c.status = "INVALID_USE_CASE")) := by
  unfold handle_use_case_row at hc
  split at hc
  · injection hc with h
    subst h
    refine ⟨?_, ?_, ?_⟩ <;> simp
  · split at hc
    · split at hc
      · rename_i s r hs hr
        injection hc with h
        subst h
        by_cases hd : s - r = 0 <;>
          refine ⟨?_, ?_, ?_⟩ <;> simp [hd]
      · cases hc
    · split at hc <;>
      · injection hc with h
        subst h
        refine ⟨?_, ?_, ?_⟩ <;> simp

/-- The classifier's output on `invalidRow` (the rejection record). -/
def invalidClassified : ClassifiedRow :=
  { use_case := "Not A Real Case"
  , source := none, target := none
  , sent := none, received := none, difference := none
  , status := "INVALID_USE_CASE", severity := "HIGH", metadata := none }

/-- Instantiation of the severity-status correspondence at the concrete
rejected row. -/
theorem severity_from_status_witness :
    handle_use_case_row invalidRow = some invalidClassified ∧
    ((invalidClassified.severity = "NONE" ↔
        invalidClassified.status = "MATCH") ∧
      (invalidClassified.severity = "MEDIUM" ↔
        (invalidClassified.status = "VALIDATION_REQUIRED" ∨
          invalidClassified.status = "PROCESS_EVENT")) ∧
      (invalidClassified.severity = "HIGH" ↔
        (invalidClassified.status = "MISMATCH" ∨
          invalidClassified.status = "INVALID_USE_CASE"))) :=
  ⟨by decide, severity_from_status invalidRow invalidClassified (by decide)⟩

/-! ## C3: the composed fallback on narrative-generation failure -/

/-- A generator standing for an external call that always raises. -/
def genFail : ClassifiedRow → Option String := fun _ => none

/-- A generator standing for an external call that returns the text
"ok". -/
def genOk : ClassifiedRow → Option String := fun _ => some "ok"

/-- A generator-branch classified row whose use case has no entry in
`USE_CASE_SOLUTIONS` (only reachable by calling the resolver pieces
directly, since unregistered rows are rejected upstream). -/
def unregisteredClassified : ClassifiedRow :=
  { use_case := "Not A Real Case"
  , source := some "", target := some ""
  , sent := some 0, received := some 0, difference := some 0
  , status := "PROCESS_EVENT", severity := "MEDIUM", metadata := some "" }

/-- C3 counterexample: on generator failure the solution string opens
with "LLM unavailable due to quota or rate limits. Suggested action: ",
not with "Narrative generation unavailable. Suggested action: "; and for
a use case with no registered remediation text the generic tail "Manual
review required." is appended after that prefix rather than returned
alone. -/
theorem narrative_fallback_counterexample :
    generate_llm_solution genFail processClassified ≠
      "Narrative generation unavailable. Suggested action: Bot prompts for receipt confirmation and sends reminders until acknowledged." ∧
    generate_llm_solution genFail processClassified =
      "LLM unavailable due to quota or rate limits. Suggested action: Bot prompts for receipt confirmation and sends reminders until acknowledged." ∧
    generate_llm_solution genFail unregisteredClassified ≠
      "Manual review required." ∧
    generate_llm_solution genFail unregisteredClassified =
      "LLM unavailable due to quota or rate limits. Suggested action: Manual review required." := by
  refine ⟨by decide, by decide, by decide, by decide⟩

/-- C3 (amended): whenever the generator fails on a classified row, the
solution is the composed string "LLM unavailable due to quota or rate
limits. Suggested action: " followed by the use case's registered
remediation text, the text defaulting to "Manual review required." when
the use case has none. -/
theorem narrative_fallback (gen : ClassifiedRow → Option String)
    (c : ClassifiedRow) (h : gen c = none) :
    generate_llm_solution gen c =
      "LLM unavailable due to quota or rate limits. Suggested action: "
        ++ ((USE_CASE_SOLUTIONS.lookup c.use_case).getD
              ("Manual review required.")) := by
  unfold generate_llm_solution
  rw [h]

/-- Instantiation of the fallback theorem at a concrete ProcessEvent row
under an always-failing generator. -/
theorem narrative_fallback_witness :
    genFail processClassified = none ∧
    generate_llm_solution genFail processClassified =
      "LLM unavailable due to quota or rate limits. Suggested action: "
        ++ ((USE_CASE_SOLUTIONS.lookup processClassified.use_case).getD
              ("Manual review required.")) :=
  ⟨rfl, narrative_fallback genFail processClassified rfl⟩

/-! ## C8: the resolver's priority order -/

/-- C8: the resolver's branches in priority order: an INVALID_USE_CASE
row gets the fixed rejection literal; otherwise a "CSV Upload
Validation" row gets the registry's canned remediation text; only
otherwise does the solution come from the narrative generator.  In the
first two branches the result is the same under any two generators, so
no external call can influence it. -/
theorem resolve_priority (gen gen2 : ClassifiedRow → Option String)
    (c : ClassifiedRow) :
    (c.status = "INVALID_USE_CASE" →
      (resolveRow gen c).solution = "Rejected: use_case not recognized." ∧
      resolveRow gen c = resolveRow gen2 c) ∧
    (c.status ≠ "INVALID_USE_CASE" → c.use_case = "CSV Upload Validation" →
      some (resolveRow gen c).solution =
        USE_CASE_SOLUTIONS.lookup ("CSV Upload Validation") ∧
      resolveRow gen c = resolveRow gen2 c) ∧
    (c.status ≠ "INVALID_USE_CASE" → c.use_case ≠ "CSV Upload Validation" →
      (resolveRow gen c).solution = generate_llm_solution gen c) := by
  refine ⟨fun h => ?_, fun h1 h2 => ?_, fun h1 h2 => ?_⟩
  · have e : ∀ g : ClassifiedRow → Option String,
        resolveRow g c =
          { toClassifiedRow := c
          , solution := "Rejected: use_case not recognized." } := by
      intro g
      unfold resolveRow
      rw [if_pos h]
    rw [e gen, e gen2]
    exact ⟨rfl, rfl⟩
  · have e : ∀ g : ClassifiedRow → Option String,
        resolveRow g c =
          { toClassifiedRow := c
          , solution :=
              (USE_CASE_SOLUTIONS.lookup ("CSV Upload Validation")).getD
                ("") } := by
      intro g
      unfold resolveRow
      rw [if_neg h1, if_pos h2]
    rw [e gen, e gen2]
    exact ⟨rfl, rfl⟩
  · unfold resolveRow
    rw [if_neg h1, if_neg h2]

/-- The classifier's output on a bare "CSV Upload Validation" row. -/
def csvClassified : ClassifiedRow :=
  { use_case := "CSV Upload Validation"
  , source := some "", target := some ""
  , sent := some 0, received := some 0, difference := some 0
  , status := "VALIDATION_REQUIRED", severity := "MEDIUM"
  , metadata := some "" }

/-- Instantiation of the priority order at concrete rows of all three
kinds, under both a failing and a succeeding generator. -/
theorem resolve_priority_witness :
    ((resolveRow genFail invalidClassified).solution =
      "Rejected: use_case not recognized." ∧
      resolveRow genFail invalidClassified =
        resolveRow genOk invalidClassified) ∧
    (some (resolveRow genFail csvClassified).solution =
      USE_CASE_SOLUTIONS.lookup ("CSV Upload Validation") ∧
      resolveRow genFail csvClassified =
        resolveRow genOk csvClassified) ∧
    (resolveRow genFail processClassified).solution =
      generate_llm_solution genFail processClassified :=
  ⟨(resolve_priority genFail genOk invalidClassified).1 (by decide),
   (resolve_priority genFail genOk csvClassified).2.1
     (by decide) (by decide),
   (resolve_priority genFail genOk processClassified).2.2
     (by decide) (by decide)⟩

/-! ## C9: generator failure never propagates -/

/-- A string append whose left part is nonempty is nonempty. -/
theorem append_ne_empty_left (s t : String) (h : s.length ≠ 0) :
    s ++ t ≠ "" := by
  intro heq
  have hl := congrArg String.length heq
  rw [String.length_append] at hl
  simp at hl
  exact h hl.1

/-- C9: a failing generator never surfaces to the caller of the resolver:
for every classified row the resolver still returns a resolved row whose
solution is one of the three definite strings (rejection literal, canned
CSV text, composed fallback), and that solution is never empty. -/
theorem generator_failure_recovered (gen : ClassifiedRow → Option String)
    (c : ClassifiedRow) (h : gen c = none) :
    ((resolveRow gen c).solution = "Rejected: use_case not recognized." ∨
      (resolveRow gen c).solution =
        (USE_CASE_SOLUTIONS.lookup ("CSV Upload Validation")).getD ("") ∨
      (resolveRow gen c).solution =
        "LLM unavailable due to quota or rate limits. Suggested action: "
          ++ ((USE_CASE_SOLUTIONS.lookup c.use_case).getD
                ("Manual review required."))) ∧
    (resolveRow gen c).solution ≠ "" := by
  unfold resolveRow
  split
  · exact ⟨Or.inl rfl, by simp⟩
  · split
    · refine ⟨Or.inr (Or.inl rfl), ?_⟩
      show (USE_CASE_SOLUTIONS.lookup ("CSV Upload Validation")).getD ("") ≠ ""
      decide
    · constructor
      · refine Or.inr (Or.inr ?_)
        show generate_llm_solution gen c = _
        unfold generate_llm_solution
        rw [h]
      · show generate_llm_solution gen c ≠ ""
        unfold generate_llm_solution
        rw [h]
        exact append_ne_empty_left _ _ (by decide)

/-- Instantiation of the failure-recovery theorem at a concrete
ProcessEvent row under an always-failing generator. -/
theorem generator_failure_recovered_witness :
    genFail processClassified = none ∧
    (((resolveRow genFail processClassified).solution =
        "Rejected: use_case not recognized." ∨
      (resolveRow genFail processClassified).solution =
        (USE_CASE_SOLUTIONS.lookup ("CSV Upload Validation")).getD ("") ∨
      (resolveRow genFail processClassified).solution =
        "LLM unavailable due to quota or rate limits. Suggested action: "
          ++ ((USE_CASE_SOLUTIONS.lookup processClassified.use_case).getD
                ("Manual review required."))) ∧
      (resolveRow genFail processClassified).solution ≠ "") :=
  ⟨rfl, generator_failure_recovered genFail processClassified rfl⟩

/-! ## C6: shape of the batch result -/

/-- C6 counterexample: a batch holding one Reconciliation row with an
unparseable `sent` cell produces no result set at all — the `int()` call
raises, the loop aborts, and no ResolvedRow is emitted for any row. -/
theorem batch_totality_counterexample :
    run_use_cases genFail [badSentRow] = none := by decide

/-- The loop preserves length and the per-index `use_case` of its input
rows whenever it completes. -/
theorem processRows_spec (gen : ClassifiedRow → Option String) :
    ∀ (rows : List InputRow) (l : List ResolvedRow),
      processRows gen rows = some l →
      l.length = rows.length ∧
      ∀ (i : Nat) (hi : i < rows.length) (hl2 : i < l.length),
        (l.get ⟨i, hl2⟩).use_case = (rows.get ⟨i, hi⟩).use_case := by
  intro rows
  induction rows with
  | nil =>
    intro l hl
    unfold processRows at hl
    injection hl with h
    subst h
    exact ⟨rfl, fun i hi hl2 => absurd hi (by simp)⟩
  | cons r rest ih =>
    intro l hl
    unfold processRows at hl
    rcases hc : handle_use_case_row r with _ | c <;> rw [hc] at hl
    · cases hl
    rcases hp : processRows gen rest with _ | restOut <;> rw [hp] at hl
    · cases hl
    injection hl with h2
    subst h2
    obtain ⟨hlen, hidx⟩ := ih restOut hp
    refine ⟨by simp [hlen], ?_⟩
    intro i hi hl2
    cases i with
    | zero =>
      show (resolveRow gen c).use_case = r.use_case
      rw [resolveRow_use_case]
      exact handle_use_case_row_use_case r c hc
    | succ j =>
      simp only [List.length_cons] at hi hl2
      exact hidx j (by omega) (by omega)

/-- C6 (amended): whenever the batch completes (no classification
exception), the result set's `total` equals the number of results, there
is exactly one result per input row, and the result at each index
carries the use case of the input row at that index. -/
theorem run_use_cases_shape (gen : ClassifiedRow → Option String)
    (rows : List InputRow) (rs : ResultSet)
    (h : run_use_cases gen rows = some rs) :
    rs.total = rs.results.length ∧ rs.results.length = rows.length ∧
    ∀ (i : Nat) (hi : i < rows.length) (hl2 : i < rs.results.length),
      (rs.results.get ⟨i, hl2⟩).use_case = (rows.get ⟨i, hi⟩).use_case := by
  unfold run_use_cases at h
  rcases hp : processRows gen rows with _ | l <;> rw [hp] at h
  · cases h
  injection h with h2
  subst h2
  obtain ⟨hlen, hidx⟩ := processRows_spec gen rows l hp
  exact ⟨rfl, hlen, hidx⟩

/-- A concrete two-row batch: one ProcessEvent row, one Reconciliation
row. -/
def batchRows : List InputRow := [processRow, mismatchRow]

/-- The result set produced on `batchRows` under the generator `genOk`. -/
def batchRS : ResultSet :=
  { total := 2
  , results :=
    [ { toClassifiedRow := processClassified, solution := "ok" }
    , { toClassifiedRow := mismatchClassified, solution := "ok" } ] }

/-- Instantiation of the batch-shape theorem at the concrete two-row
batch. -/
theorem run_use_cases_shape_witness :
    run_use_cases genOk batchRows = some batchRS ∧
    (batchRS.total = batchRS.results.length ∧
      batchRS.results.length = batchRows.length ∧
      ∀ (i : Nat) (hi : i < batchRows.length)
        (hl2 : i < batchRS.results.length),
        (batchRS.results.get ⟨i, hl2⟩).use_case =
          (batchRows.get ⟨i, hi⟩).use_case) :=
  ⟨by decide, run_use_cases_shape genOk batchRows batchRS (by decide)⟩
